import Mathlib

/-!
Verification development for the Sinusitis DBQ wizard (`src/app.py`).

The app is a Streamlit multi-step form: a five-step wizard with a
deterministic per-step validator, a semantic oracle (Groq LLM) wrapper,
a provisional-pass cache (`step_validation_passed` / `validated_step_data`),
draft save/load through browser local storage, a submission envelope
generator, and an S3 polling loop.  Every definition below is a shallow
embedding of the corresponding Python code; Streamlit session state is
modelled as a function `String → Option Value` (a key absent from
`st.session_state` is `none`; the widget keys used here never hold
Python `None`).
-/

namespace MedForm

/-- Values stored in Streamlit session state and in `form_data`:
the widgets of this app produce either strings (text inputs, selectboxes,
radio buttons) or lists of strings (multiselects). -/
inductive Value
  | str (s : String)
  | lst (l : List String)
  deriving DecidableEq, Repr

/-- A Python dict keyed by strings, as a total function; `none` models
"key absent". -/
abbrev StrMap := String → Option Value

/-- Build a `StrMap` from an association list (used for concrete states). -/
def sessOf (l : List (String × Value)) : StrMap :=
  fun k => (l.find? (fun p => p.1 == k)).map Prod.snd

/-- `ALL_KEYS_ORDERED` from `src/app.py` lines 126-157: the fixed field
schema order. -/
def ALL_KEYS_ORDERED : List String := [
  "Sinusitis__c.Sinusitis_1a__c", "Sinusitis__c.Sinus_Q10c__c", "Sinusitis__c.Sinus_Q11__c",
  "Sinusitis__c.Sinus_Q11a__c", "Sinusitis__c.Sinus_Q11aaa__c", "Sinusitis__c.Sinus_Q11aab__c",
  "Sinusitis__c.Sinus_Q11aac__c", "Sinusitis__c.Sinus_Q11aba__c", "Sinusitis__c.Sinus_Q11abb__c",
  "Sinusitis__c.Sinus_Q11abc__c", "Sinusitis__c.Sinus_Q11aca__c", "Sinusitis__c.Sinus_Q11acb__c",
  "Sinusitis__c.Sinus_Q11acc__c", "Sinusitis__c.Sinus_Q11b__c", "Sinusitis__c.Sinus_Q48__c",
  "Sinusitis__c.Sinus_Q34__c", "Sinusitis__c.Sinus_Q12__c", "Sinusitis__c.Sinus_Q13__c",
  "Sinusitis__c.Sinus_Q14__c", "Sinusitis__c.Sinus_Q15__c", "Sinusitis__c.Sinus_Q16__c",
  "Sinusitis__c.Sinus_Q17__c", "Sinusitis__c.Sinus_Q17a__c",
  "Sinusitis__c.Sinus_Q17aaa__c", "Sinusitis__c.Sinus_Q17aaa1__c", "Sinusitis__c.Sinus_Q17aab__c",
  "Sinusitis__c.Sinus_Q17aba__c", "Sinusitis__c.Sinus_Q17aba1__c", "Sinusitis__c.Sinus_Q17abb__c",
  "Sinusitis__c.Sinus_Q17abc__c", "Sinusitis__c.Sinus_Q17abc1__c", "Sinusitis__c.Sinus_Q17aca__c",
  "Sinusitis__c.Sinus_Q17acb__c", "Sinusitis__c.Sinus_Q17acb1__c", "Sinusitis__c.Sinus_Q17acc__c",
  "Sinusitis__c.Sinus_Q17b__c", "Sinusitis__c.Sinus_Q17c__c", "Sinusitis__c.Sinus_Q17d__c",
  "Sinusitis__c.Sinus_Q20__c", "Sinusitis__c.Sinus_Q20a__c", "Sinusitis__c.Sinus_Q20b__c", "Sinusitis__c.Sinus_Q20c__c",
  "Sinusitis__c.Sinus_Q20d__c", "Sinusitis__c.Sinus_Q35__c", "Sinusitis__c.Sinus_Q35a__c",
  "Sinusitis__c.Sinus_Q35b__c", "Sinusitis__c.Sinus_Q35c__c", "Sinusitis__c.Sinus_Q36__c",
  "Sinusitis__c.Sinus_Q36a__c", "Sinusitis__c.Sinus_Q36b__c", "Sinusitis__c.Sinus_Q36c__c",
  "Sinusitis__c.Sinus_Q36d__c", "Sinusitis__c.Sinus_Q36e__c", "Sinusitis__c.Sinus_Q36f__c",
  "Sinusitis__c.Sinus_Q36g__c", "Sinusitis__c.Sinus_Q36h__c", "Sinusitis__c.Sinus_Q37__c",
  "Sinusitis__c.Sinus_Q37a__c", "Sinusitis__c.Sinus_Q38__c", "Sinusitis__c.Sinus_Q38a__c",
  "Sinusitis__c.Sinus_Q39__c", "Sinusitis__c.Sinus_Q39a__c", "Sinusitis__c.Sinus_Q39b__c",
  "Sinusitis__c.Sinus_Q39c__c", "Sinusitis__c.Sinus_Q39d__c", "Sinusitis__c.Sinus_Q30__c",
  "Sinusitis__c.Sinus_Q31__c", "Sinusitis__c.Sinus_Q40__c", "Sinusitis__c.Sinus_Q41__c",
  "Sinusitis__c.Sinus_Q32__c", "Sinusitis__c.Sinus_Q43__c", "Sinusitis__c.Sinus_Q42__c",
  "Sinusitis__c.Sinus_Q49__c", "Sinusitis__c.Sinus_Q50__c", "Sinusitis__c.Sinus_Q51__c",
  "Sinusitis__c.Sinus_Q52__c", "Sinusitis__c.Sinus_Q44__c", "Sinusitis__c.Sinus_Q53__c",
  "Sinusitis__c.Sinus_Q54__c", "Sinusitis__c.Sinus_Q55__c", "Sinusitis__c.Sinus_Q56__c",
  "Sinusitis__c.Sinus_Q45__c", "Sinusitis__c.Sinus_Q46__c", "Sinusitis__c.Sinus_Q47__c",
  "Sinusitis__c.Sinus_Q42e__c", "Sinusitis__c.Sinus_Q21__c", "Sinusitis__c.DBQ__c.Veteran_Name_Text__c",
  "Sinusitis__c.Date_Submitted__c"]

/-- `QUESTION_MAP` from `src/app.py` lines 159-181, as an association list
(core key, human-readable label). -/
def QUESTION_MAP : List (String × String) := [
  ("Sinusitis_1a__c", "Initial claim or re-evaluation?"),
  ("Sinus_Q10c__c", "Brief history of sinus condition"),
  ("Sinus_Q11__c", "Do you currently take any medication?"),
  ("Sinus_Q11a__c", "How many medications?"),
  ("Sinus_Q11aaa__c", "Medication #1 Name"),
  ("Sinus_Q11aba__c", "Medication #2 Name"),
  ("Sinus_Q11aca__c", "Medication #3 Name"),
  ("Sinus_Q48__c", "Seeking service connection?"),
  ("Sinus_Q34__c", "Indicate the sinus/type of sinusitis affected"),
  ("Sinus_Q15__c", "Number of non-incapacitating episodes (last 12 months)"),
  ("Sinus_Q16__c", "Number of incapacitating episodes (last 12 months)"),
  ("Sinus_Q12__c", "Symptoms checklist"),
  ("Sinus_Q14__c", "Detailed symptom description"),
  ("Sinus_Q17__c", "Ever had sinus surgery?"),
  ("Sinus_Q17a__c", "How many sinus surgeries?"),
  ("Sinus_Q17aaa__c", "Surgery #1 Date"),
  ("Sinus_Q17aaa1__c", "Surgery #1 Type"),
  ("Sinus_Q17aab__c", "Surgery #1 Findings"),
  ("Sinus_Q17aba__c", "Surgery #2 Date"),
  ("Sinus_Q17aba1__c", "Surgery #2 Type"),
  ("Sinus_Q17abb__c", "Surgery #2 Findings"),
  ("Sinus_Q17abc__c", "Surgery #3 Date"),
  ("Sinus_Q17abc1__c", "Surgery #3 Type"),
  ("Sinus_Q17aca__c", "Surgery #3 Findings"),
  ("Sinus_Q17acb__c", "Surgery #4 Date"),
  ("Sinus_Q17acb1__c", "Surgery #4 Type"),
  ("Sinus_Q17acc__c", "Surgery #4 Findings"),
  ("Sinus_Q17b__c", "Which sinus was operated on?"),
  ("Sinus_Q17c__c", "Which side of your sinuses were operated on?"),
  ("Sinus_Q17d__c", "Additional Surgeries (>4) Details"),
  ("Sinus_Q21__c", "Occupational Impact")]

/-- `key.replace("Sinusitis__c.", "")`.  Every schema key contains the
pattern at most once, at position 0, so Python's replace-all coincides
with dropping the leading occurrence (13 characters). -/
def coreKey (k : String) : String :=
  if "Sinusitis__c.".data.isPrefixOf k.data then ⟨k.data.drop 13⟩ else k

/-- `QUESTION_MAP.get(core_key, core_key)`: label of a schema key. -/
def labelOf (k : String) : String :=
  (((QUESTION_MAP.find? (fun p => p.1 == coreKey k)).map Prod.snd)).getD (coreKey k)

/-- The sentinel test `val in [None, "", "--select--", "--select an item--"]`
used by `get_readable_step_data`.  A list value is never equal to any of
the sentinels (in Python, `[] == ""` is `False`). -/
def isUnanswered : Option Value → Bool
  | none => true
  | some (Value.str "") => true
  | some (Value.str "--select--") => true
  | some (Value.str "--select an item--") => true
  | _ => false

/-- `get_readable_step_data` (`src/app.py` lines 310-318): walk
`ALL_KEYS_ORDERED`, drop sentinel/absent values, and emit
`(label, value)` pairs.  The Python function builds a dict; since the
labels of distinct schema keys are distinct and both compared dicts are
always produced by this same function (hence in the same canonical key
order), dict equality coincides with equality of these ordered lists.
The caller passes `read = session` for `global_fetch=False` and
`read = form_data` for `global_fetch=True`. -/
def get_readable_step_data (read : StrMap) : List (String × Value) :=
  ALL_KEYS_ORDERED.filterMap fun k =>
    match read k with
    | some v => if isUnanswered (some v) then none else some (labelOf k, v)
    | none => none

/-- Python truthiness of the `current_warning` slot: `None` and `""` are
falsy, every non-empty string is truthy. -/
def truthy : Option String → Bool
  | none => false
  | some s => s != ""

/-- One entry of the `DPA` object of the submission envelope. -/
structure EnvelopeEntry where
  core : String
  question : String
  answer : Option Value
  deriving DecidableEq, Repr

/-- The whole submission envelope (`caseID`, `DBQType`, `DPA`). -/
structure Envelope where
  caseID : String
  dbqType : String
  dpa : List EnvelopeEntry
  deriving DecidableEq, Repr

/-- `generate_tailored_json` (`src/app.py` lines 771-778): for each key of
`ALL_KEYS_ORDERED`, in order, emit
`{"Question": QUESTION_MAP.get(core, core), "Answer": form_data.get(key, None)}`.
The 6-digit random `case_id` is a parameter here; `json.dumps` is not
modelled (the JSON text is determined by this structured value, and
Python dicts preserve insertion order). -/
def generate_tailored_json (case_id : String) (form_data : StrMap) : Envelope :=
  { caseID := case_id
    dbqType := "sinus"
    dpa := ALL_KEYS_ORDERED.map fun k =>
      { core := coreKey k, question := labelOf k, answer := form_data k } }

/-- The per-session Streamlit state relevant to the wizard controller
(`src/app.py` lines 223-250 and 764-769).  `session` models
`st.session_state`'s widget keys, the other fields model the named
session slots.  Keys absent from `session` are `none`; the widget keys
of this app never hold Python `None`. -/
structure AppState where
  step : Nat
  session : StrMap
  form_data : StrMap
  current_warning : Option String
  step_validation_passed : Bool
  validated_step_data : Option (List (String × Value))
  force_restore : Bool
  aws_upload_started : Bool
  aws_upload_triggered : Bool
  final_validation_passed : Bool

/-- `save_step_data` (`src/app.py` lines 254-257): copy every schema key
present in session state into `form_data`. -/
def save_step_data (st : AppState) : AppState :=
  { st with form_data := fun k =>
      if ALL_KEYS_ORDERED.contains k then
        match st.session k with
        | some v => some v
        | none => st.form_data k
      else st.form_data k }

/-- `proceed_to_next` (`src/app.py` lines 320-326). -/
def proceed_to_next (st : AppState) : AppState :=
  { save_step_data st with
      current_warning := none
      step_validation_passed := false
      validated_step_data := none
      step := st.step + 1
      force_restore := true }

/-- `prev_step` (`src/app.py` lines 328-334). -/
def prev_step (st : AppState) : AppState :=
  { save_step_data st with
      current_warning := none
      step_validation_passed := false
      validated_step_data := none
      step := st.step - 1
      force_restore := true }

/-- `attempt_validation` (`src/app.py` lines 336-351), with the semantic
oracle's answer passed in as `ai_response` (the oracle is an external
black box; `attempt_validation` always performs exactly one oracle call,
on `get_readable_step_data` of the committed session).  The caller treats
the result as a semantic pass exactly when the returned string equals
`"PASS"`. -/
def attempt_validation (ai_response : String) (st : AppState) : AppState :=
  if ai_response = "PASS" then
    { save_step_data st with
        current_warning := none
        step_validation_passed := true
        validated_step_data := some (get_readable_step_data (save_step_data st).session) }
  else
    { save_step_data st with
        current_warning := some ai_response
        step_validation_passed := false
        validated_step_data := none }

/-- The pass-revocation block at the top of `render_navigation`
(`src/app.py` lines 356-364): if a provisional pass is held and the live
readable data differs from the validated snapshot, the pass, the
snapshot and the warning are cleared.  (Comparing the snapshot via list
equality is exact: see `get_readable_step_data`.) -/
def nav_revoke (st : AppState) : AppState :=
  if st.step_validation_passed then
    if some (get_readable_step_data (save_step_data st).session) =
        (save_step_data st).validated_step_data then
      save_step_data st
    else
      { save_step_data st with
          step_validation_passed := false
          validated_step_data := none
          current_warning := none }
  else st

/-- Which of the three navigation panels `render_navigation` shows in its
right-hand column (`src/app.py` lines 374-409): the warning panel (with
Validate Again / Continue Anyway), the success panel (with Proceed to
Next Step), or the plain Validate Step button. -/
inductive NavUI
  | warningUI
  | proceedUI
  | validateUI
  deriving DecidableEq, Repr

/-- The branch selection of `render_navigation` after the revocation
block: `if st.session_state.current_warning: ... elif step_validation_passed:
... else: ...`. -/
def nav_ui (st : AppState) : NavUI :=
  if truthy (nav_revoke st).current_warning then NavUI.warningUI
  else if (nav_revoke st).step_validation_passed then NavUI.proceedUI
  else NavUI.validateUI

/-- A rerun of `render_navigation` in which the user clicks
"Proceed to Next Step" (`src/app.py` lines 397-401).  The revocation
block (lines 356-364) runs first in the same rerun; the button is only
rendered (and hence the click only handled) when no warning is shown
and the provisional pass is still held. -/
def click_proceed (st : AppState) : AppState :=
  if !truthy (nav_revoke st).current_warning && (nav_revoke st).step_validation_passed then
    proceed_to_next (nav_revoke st)
  else nav_revoke st

/-- A rerun of `render_navigation` in which the user clicks
"Validate Step" (`src/app.py` lines 403-409) or "Validate Again"
(lines 380-386) — both handlers are identical: run the deterministic
`python_validation` on the live session first; on an error, display it
and return without touching the oracle; otherwise call
`attempt_validation`.  The second component counts semantic-oracle
invocations performed by the click (`0` or `1`); the oracle itself is
the parameter `oracle`, a function of the readable step data. -/
def click_validate (python_validation : StrMap → Option String)
    (oracle : List (String × Value) → String) (st : AppState) :
    AppState × Nat :=
  match python_validation (nav_revoke st).session with
  | some _ => (nav_revoke st, 0)
  | none =>
      (attempt_validation
        (oracle (get_readable_step_data (save_step_data (nav_revoke st)).session))
        (nav_revoke st), 1)

/-- A rerun of `render_navigation` in which the user clicks
"Continue Anyway" (`src/app.py` lines 388-395): the deterministic
`python_validation` is run first; on an error the handler shows
"Cannot bypass" and returns without advancing; otherwise
`proceed_to_next` runs. -/
def click_force (python_validation : StrMap → Option String)
    (st : AppState) : AppState :=
  match python_validation (nav_revoke st).session with
  | some _ => nav_revoke st
  | none => proceed_to_next (nav_revoke st)

/-- A saved draft: the payload `{"step": step, "form_data": form_data}`
written to the `dbq_draft` local-storage slot (`src/app.py` lines
272-277).  `json.dumps`/`json.loads` round-trip this payload exactly
(string keys, values are null, strings or lists of strings), so the
slot is modelled structurally. -/
structure Draft where
  step : Nat
  form_data : StrMap

/-- The "Save Progress" handler (`src/app.py` lines 270-278): commit the
live answers, then write `{step, form_data}` to the slot. -/
def save_draft (st : AppState) : AppState × Draft :=
  (save_step_data st,
    { step := (save_step_data st).step, form_data := (save_step_data st).form_data })

/-- The "Load Saved Progress" handler on a present slot (`src/app.py`
lines 282-298): replace `step` and `form_data` from the draft, clear the
warning, reset `aws_upload_started`, and arm `force_restore`. -/
def load_draft (d : Draft) (st : AppState) : AppState :=
  { st with
      step := d.step
      form_data := d.form_data
      current_warning := none
      aws_upload_started := false
      force_restore := true }

/-- The rebind pass at the top of the script (`src/app.py` lines
242-250), executed on the next rerun: with `force_restore` set, every
non-`None` `form_data` value is written over the live session binding
(and `force_restore` is consumed); otherwise only keys missing from the
session are filled in. -/
def force_restore_pass (st : AppState) : AppState :=
  if st.force_restore then
    { st with
        session := fun k =>
          match st.form_data k with
          | some v => some v
          | none => st.session k
        force_restore := false }
  else
    { st with
        session := fun k =>
          match st.session k with
          | some v => some v
          | none => st.form_data k }

/-- `st.session_state.get(key, "")` for a string-valued widget key (the
keys read this way in the validators only ever hold strings). -/
def getStrD (σ : StrMap) (k : String) : String :=
  match σ k with
  | some (Value.str s) => s
  | _ => ""

/-- Python `str.strip()` (strip leading/trailing whitespace; the
whitespace characters occurring in this app's inputs are covered by
`Char.isWhitespace`). -/
def pyStrip (s : String) : String :=
  ⟨((s.data.dropWhile Char.isWhitespace).reverse.dropWhile Char.isWhitespace).reverse⟩

/-- Python `str.isdigit()`: non-empty and every character a digit. -/
def pyIsDigit (s : String) : Bool := s ≠ "" && s.data.all Char.isDigit

/-- The `med_keys` list of step 2 (`src/app.py` lines 480-484):
(name key, dosage key, frequency key) for medications 1-3. -/
def med_keys : List (String × String × String) := [
  ("Sinusitis__c.Sinus_Q11aaa__c", "Sinusitis__c.Sinus_Q11aab__c", "Sinusitis__c.Sinus_Q11aac__c"),
  ("Sinusitis__c.Sinus_Q11aba__c", "Sinusitis__c.Sinus_Q11abb__c", "Sinusitis__c.Sinus_Q11abc__c"),
  ("Sinusitis__c.Sinus_Q11aca__c", "Sinusitis__c.Sinus_Q11acb__c", "Sinusitis__c.Sinus_Q11acc__c")]

/-- The body of the `for i in range(check_limit)` loop of
`py_validate_meds` (`src/app.py` lines 513-536) for one medication
record: the eight checks, in source order, on the stripped name, dosage
and frequency; `i` is the zero-based index used in the messages. -/
def checkMedRecord (i : Nat) (med_name med_dose med_freq : String) : Option String :=
  if med_name.length < 2 then
    some ("Medication #" ++ toString (i+1) ++ " Name is missing or too short.")
  else if med_dose = "" then
    some ("Medication #" ++ toString (i+1) ++ " Dosage is missing.")
  else if pyIsDigit med_dose then
    some ("Medication #" ++ toString (i+1) ++ " Dosage \x27" ++ med_dose ++
      "\x27 is invalid. You must include a unit (e.g., \x2710mg\x27, \x271 pill\x27).")
  else if med_dose.length < 2 then
    some ("Medication #" ++ toString (i+1) ++ " Dosage \x27" ++ med_dose ++ "\x27 is too short.")
  else if med_freq = "" then
    some ("Medication #" ++ toString (i+1) ++ " Frequency is missing.")
  else if pyIsDigit med_freq then
    some ("Medication #" ++ toString (i+1) ++ " Frequency cannot be just a number.")
  else if med_freq.length < 3 then
    some ("Medication #" ++ toString (i+1) ++ " Frequency \x27" ++ med_freq ++
      "\x27 is too short. Please specify (e.g., \x27daily\x27, \x27as needed\x27).")
  else none

/-- The loop body applied to the session: fetch `med_keys[i]`, strip the
three fields, run the checks. -/
def medErr (σ : StrMap) (i : Nat) : Option String :=
  match med_keys.get? i with
  | some (nk, dk, fk) =>
      checkMedRecord i (pyStrip (getStrD σ nk)) (pyStrip (getStrD σ dk))
        (pyStrip (getStrD σ fk))
  | none => none

/-- Decimal value of a digit string (helper for `parseNat`). -/
def digitsToNat : List Char → Nat → Nat
  | [], acc => acc
  | c :: rest, acc => digitsToNat rest (acc * 10 + (c.toNat - 48))

/-- Python `int(s)` for a plain non-negative decimal string; `none` when
`int()` would raise a `ValueError`. -/
def parseNat (s : String) : Option Nat :=
  if s ≠ "" && s.data.all Char.isDigit then some (digitsToNat s.data 0) else none

/-- `count = 4 if n_meds == "More than 3" else int(n_meds)`
(`src/app.py` line 510).  In the app the selector's value is one of
`"1"`, `"2"`, `"3"`, `"More than 3"` whenever this line runs (the
`"--select--"` case returns earlier); Python's `int()` raises on
anything else, so the `getD 0` fallback is unreachable in the app and
our theorems restrict `n_meds` to the selector's options. -/
def medCountOf : Option Value → Nat
  | some (Value.str "More than 3") => 4
  | some (Value.str s) => (parseNat s).getD 0
  | _ => 0

/-- The tail of `py_validate_meds` after the count has been determined
(`src/app.py` lines 510-539): `check_limit = min(count, 3)`, the
first-violation loop over the medication records, then the
"More than 3" free-text bucket requirement. -/
def validate_meds_counted (σ : StrMap) (count : Nat) : Option String :=
  match (List.range (min count 3)).findSome? (medErr σ) with
  | some e => some e
  | none =>
      if count = 4 && pyStrip (getStrD σ "Sinusitis__c.Sinus_Q11b__c") = "" then
        some "You selected \x27More than 3\x27 medications. Please list the additional ones in the text area."
      else none

/-- `py_validate_meds` (`src/app.py` lines 504-540): the deterministic
validator of step 2. -/
def py_validate_meds (σ : StrMap) : Option String :=
  if σ "Sinusitis__c.Sinus_Q11__c" = some (Value.str "Yes") then
    match σ "Sinusitis__c.Sinus_Q11a__c" with
    | some (Value.str "--select--") => some "Please select the number of medications."
    | n_meds => validate_meds_counted σ (medCountOf n_meds)
  else none

/-- A medication detail record that passes all eight checks of
`checkMedRecord` (the spec's "complete detail record"): name at least
two characters, dosage and frequency non-empty, not digit-only, and
long enough. -/
def recordOk (med_name med_dose med_freq : String) : Bool :=
  2 ≤ med_name.length && med_dose ≠ "" && !pyIsDigit med_dose &&
    2 ≤ med_dose.length && med_freq ≠ "" && !pyIsDigit med_freq &&
    3 ≤ med_freq.length

/-- Characters admitted by the name regular expression of
`validate_step_5` (`src/app.py` line 788):
`^[A-Za-z\x{c0}-\x{d6}\x{d8}-\x{f6}\x{f8}-\x{ff}\-\x27 ]+$` —
ASCII letters, the Latin-1 letter ranges, hyphen, apostrophe, space. -/
def isNameChar (c : Char) : Bool :=
  (65 ≤ c.toNat && c.toNat ≤ 90) || (97 ≤ c.toNat && c.toNat ≤ 122) ||
  (192 ≤ c.toNat && c.toNat ≤ 214) || (216 ≤ c.toNat && c.toNat ≤ 246) ||
  (248 ≤ c.toNat && c.toNat ≤ 255) || c.toNat = 45 || c.toNat = 39 || c.toNat = 32

/-- Full-string match of the name regular expression (the pattern is
anchored on both sides and `+` needs at least one character; the input
is already stripped, so `$` cannot match before a trailing newline). -/
def nameMatches (s : String) : Bool := s ≠ "" && s.data.all isNameChar

/-- Helper for `pyWords`: accumulate the current word (reversed) while
scanning the character list. -/
def pyWordsAux : List Char → List Char → List String
  | [], acc => if acc.isEmpty then [] else [⟨acc.reverse⟩]
  | c :: rest, acc =>
      if c.isWhitespace then
        if acc.isEmpty then pyWordsAux rest []
        else ⟨acc.reverse⟩ :: pyWordsAux rest []
      else pyWordsAux rest (c :: acc)

/-- Python `name.split()`: split on whitespace runs, no empty pieces. -/
def pyWords (s : String) : List String := pyWordsAux s.data []

/-- Full-string match of the date regular expression of
`validate_step_5` (`src/app.py` line 797):
`^(0[1-9]|1[0-2])\/(0[1-9]|[12]\d|3[01])\/\d{4}$`. -/
def dateMatches (s : String) : Bool :=
  match s.data with
  | [m1, m2, '/', d1, d2, '/', y1, y2, y3, y4] =>
      ((m1 = '0' && '1' ≤ m2 && m2 ≤ '9') || (m1 = '1' && '0' ≤ m2 && m2 ≤ '2')) &&
      ((d1 = '0' && '1' ≤ d2 && d2 ≤ '9') || ((d1 = '1' || d1 = '2') && d2.isDigit) ||
        (d1 = '3' && (d2 = '0' || d2 = '1'))) &&
      (y1.isDigit && y2.isDigit && y3.isDigit && y4.isDigit)
  | _ => false

/-- `validate_step_5` (`src/app.py` lines 781-805): the deterministic
validator of the final step.  `today` is
`datetime.now().strftime("%m/%d/%Y")` at validation time. -/
def validate_step_5 (today : String) (σ : StrMap) : Option String :=
  let name := pyStrip (getStrD σ "Sinusitis__c.DBQ__c.Veteran_Name_Text__c")
  if name = "" then
    some "Veteran Name is strictly required to sign and submit this document."
  else if (pyWords name).length < 2 || !nameMatches name then
    some "Please enter your full legal name (First and Last Name). Numbers or special characters are not allowed."
  else
    let date_str := pyStrip (getStrD σ "Sinusitis__c.Date_Submitted__c")
    if date_str = "" then
      some "Date Submitted is strictly required."
    else if !dateMatches date_str then
      some "Date Submitted MUST be exactly in MM/DD/YYYY format (e.g., 12/25/2024)."
    else if date_str ≠ today then
      some ("Date Submitted MUST be exactly today\x27s date (" ++ today ++ "). Past or future dates are invalid.")
    else none

/-- A widget edit on step 5 (or any step): a Streamlit rerun triggered by
the user changing a widget value updates only that session binding; no
handler runs, so every flag — in particular `final_validation_passed` —
is left as it was. -/
def edit_answer (k : String) (v : Value) (st : AppState) : AppState :=
  { st with session := fun key => if key == k then some v else st.session key }

/-- A rerun of step 5 in which the user clicks "Validate Full Form"
(`src/app.py` lines 847-877).  The button is rendered only when no
warning is showing and `final_validation_passed` is not yet set.  The
handler runs `validate_step_5` first; on an error it reports it and
changes nothing; otherwise it commits the answers and calls the
whole-form oracle on `get_readable_step_data(global_fetch=True)` —
i.e. on the committed `form_data` — setting `final_validation_passed`
on `"PASS"` and storing the warning otherwise. -/
def click_validate_full (today : String)
    (oracle : List (String × Value) → String) (st : AppState) : AppState :=
  if truthy st.current_warning || st.final_validation_passed then st
  else
    match validate_step_5 today st.session with
    | some _ => st
    | none =>
        if oracle (get_readable_step_data (save_step_data st).form_data) = "PASS" then
          { save_step_data st with final_validation_passed := true }
        else
          { save_step_data st with current_warning := some (oracle (get_readable_step_data (save_step_data st).form_data)) }

/-- A rerun of step 5 in which the user clicks the non-forced "Submit"
button (`src/app.py` lines 841-845).  The button exists only when no
warning is showing and `final_validation_passed` is set; it runs no
validation of its own and merely triggers the upload. -/
def click_submit (st : AppState) : AppState :=
  if !truthy st.current_warning && st.final_validation_passed then
    { st with aws_upload_triggered := true }
  else st

/-- A rerun of step 5 in which the user clicks "Submit Anyway"
(`src/app.py` lines 832-838), available while a consistency warning is
showing: `validate_step_5` is re-run; on an error the handler shows
"Cannot bypass" and does not trigger the upload; otherwise the upload
is triggered. -/
def click_submit_anyway (today : String) (st : AppState) : AppState :=
  if truthy st.current_warning then
    match validate_step_5 today st.session with
    | some _ => st
    | none => { st with aws_upload_triggered := true }
  else st

/-- Outcome of `json.loads(response_text)` followed by field access in
`GroqMedicalScribe.validate_step`: either the content string is not valid
JSON (`notJson`, carrying the raw content used in the error message), or
it parses to an object whose `"status"` and `"hint"` fields are read with
`dict.get` (absent fields give `none`, matching Python `None`). -/
inductive ContentParse
  | notJson (raw : String)
  | obj (status : Option String) (hint : Option String)
  deriving DecidableEq, Repr

/-- Outcome of the `requests.post` call in `validate_step`:
`exn` models any exception reaching the outer `except Exception` handler
(connection failure, or a failure extracting
`res.json()["choices"][0]["message"]["content"]`), stringified as `msg`;
`resp` models a completed HTTP response with its status code, its body
text (`res.text`, used in the non-200 message) and the parse of the
extracted content string. -/
inductive HttpResult
  | exn (msg : String)
  | resp (status_code : Nat) (text : String) (content : ContentParse)
  deriving DecidableEq, Repr

namespace GroqMedicalScribe

/-- `GroqMedicalScribe.validate_step` (`src/app.py` lines 20-71) as a
function of the transport outcome.  The function is total: every failure
is normalized to a returned string, never an exception.  The caller
(`attempt_validation`) treats the result as a semantic pass exactly when
it equals the literal `"PASS"` — the verdict travels in-band in the
returned string. -/
def validate_step (api_key : String) (r : HttpResult) : String :=
  if api_key = "" then "Groq API Key missing in Secrets."
  else
    match r with
    | HttpResult.exn m => "Cannot connect to Groq server. Error: " ++ m
    | HttpResult.resp code text content =>
        if code ≠ 200 then "API Error: " ++ text
        else
          match content with
          | ContentParse.notJson raw => "Model error. Raw output: " ++ raw
          | ContentParse.obj status hint =>
              if status = some "PASS" then "PASS"
              else hint.getD "Missing information. Please check your inputs."

end GroqMedicalScribe

/-- One response of the S3 output store to a `get_object` poll attempt
(`src/app.py` lines 106-120): a hit whose body decodes (`found`, carrying
the `json.loads` result), a hit whose body fails to decode (`foundBadJson`
— `json.loads` raises inside the `try`, landing in the generic handler),
the distinguished `NoSuchKey` client error, any other `ClientError`, or
any other exception. -/
inductive S3Resp
  | found (doc : String)
  | foundBadJson (msg : String)
  | noSuchKey
  | clientErr (msg : String)
  | exn (msg : String)
  deriving DecidableEq, Repr

/-- Terminal outcome of `poll_output_bucket`.  In Python the function
returns the deserialized document on success and `None` otherwise, but
the three `None` paths surface distinct placeholder messages
("S3 Error: ..." / "Error: ..." vs "Timeout: too long to process the
file."); the constructors carry that distinction. -/
inductive PollOutcome
  | success (doc : String)
  | errorOut (msg : String)
  | timeoutOut
  deriving DecidableEq, Repr

/-- Default `initial_wait` of `poll_output_bucket`: the countdown loop
performs exactly this many one-second sleeps before `start_time` is
taken, so the first poll attempt happens a fixed 30-second quiet period
after the call. -/
def INITIAL_WAIT : Nat := 30

/-- Default overall `timeout` (seconds), measured from `start_time`,
i.e. from the start of polling (after the quiet period). -/
def POLL_TIMEOUT : Nat := 180

/-- The fixed retry interval: `time.sleep(5)` on `NoSuchKey`. -/
def POLL_INTERVAL : Nat := 5

/-- The `while time.time() - start_time < timeout` loop of
`poll_output_bucket` (`src/app.py` lines 105-123).  Time advances by
`POLL_INTERVAL` seconds per `NoSuchKey` iteration (the `sleep(5)`; the
`get_object` call itself is modelled as instantaneous), so the loop
condition admits exactly `fuel` more iterations.  `i` numbers the
attempts; `store i` is the store's response to attempt `i`.  When the
condition fails the loop falls through to the timeout report. -/
def poll_go (store : Nat → S3Resp) : Nat → Nat → PollOutcome
  | _, 0 => PollOutcome.timeoutOut
  | i, fuel + 1 =>
      match store i with
      | S3Resp.found doc => PollOutcome.success doc
      | S3Resp.foundBadJson m => PollOutcome.errorOut ("Error: " ++ m)
      | S3Resp.noSuchKey => poll_go store (i + 1) fuel
      | S3Resp.clientErr m => PollOutcome.errorOut ("S3 Error: " ++ m)
      | S3Resp.exn m => PollOutcome.errorOut ("Error: " ++ m)

/-- Number of loop iterations admitted by the wall-clock condition: the
`k`-th iteration starts at elapsed time `5k`, and runs iff `5k < 180`,
so iterations `0..35` run — `⌈timeout / interval⌉ = 36` of them. -/
def maxPolls : Nat := (POLL_TIMEOUT + POLL_INTERVAL - 1) / POLL_INTERVAL

/-- `poll_output_bucket` (`src/app.py` lines 95-123) after the fixed
initial quiet period: the polling loop with the default timeout. -/
def poll_output_bucket (store : Nat → S3Resp) : PollOutcome :=
  poll_go store 0 maxPolls

/-- The initial `form_data`: `{k: None for k in ALL_KEYS_ORDERED}` —
pointwise `none` as a map. -/
def emptyFD : StrMap := fun _ => none

/-- A fresh session right after `st.set_page_config`: step 1, empty
answers, no warning, no provisional pass (`src/app.py` lines 223-239,
764-769). -/
def baseState : AppState :=
  { step := 1
    session := sessOf []
    form_data := emptyFD
    current_warning := none
    step_validation_passed := false
    validated_step_data := none
    force_restore := false
    aws_upload_started := false
    aws_upload_triggered := false
    final_validation_passed := false }

/-- Concrete step-2 session for the spec's Scenario 1: medication count
selector `"2"`, medication #1 completely filled in, medication #2
untouched. -/
def meds2sess : StrMap := sessOf [
  ("Sinusitis__c.Sinus_Q11__c", Value.str "Yes"),
  ("Sinusitis__c.Sinus_Q11a__c", Value.str "2"),
  ("Sinusitis__c.Sinus_Q11aaa__c", Value.str "Flonase"),
  ("Sinusitis__c.Sinus_Q11aab__c", Value.str "50mcg"),
  ("Sinusitis__c.Sinus_Q11aac__c", Value.str "daily")]

/-- Concrete step-2 session with all three medications complete and the
count selector at `"3"`. -/
def meds3sess : StrMap := sessOf [
  ("Sinusitis__c.Sinus_Q11__c", Value.str "Yes"),
  ("Sinusitis__c.Sinus_Q11a__c", Value.str "3"),
  ("Sinusitis__c.Sinus_Q11aaa__c", Value.str "Flonase"),
  ("Sinusitis__c.Sinus_Q11aab__c", Value.str "50mcg"),
  ("Sinusitis__c.Sinus_Q11aac__c", Value.str "daily"),
  ("Sinusitis__c.Sinus_Q11aba__c", Value.str "Zyrtec"),
  ("Sinusitis__c.Sinus_Q11abb__c", Value.str "10mg"),
  ("Sinusitis__c.Sinus_Q11abc__c", Value.str "as needed"),
  ("Sinusitis__c.Sinus_Q11aca__c", Value.str "Claritin"),
  ("Sinusitis__c.Sinus_Q11acb__c", Value.str "5mg"),
  ("Sinusitis__c.Sinus_Q11acc__c", Value.str "daily")]

/-- A fixed calendar date for concrete step-5 runs (the value of
`datetime.now().strftime("%m/%d/%Y")` during the run). -/
def today0 : String := "10/12/2026"

/-- Concrete step-5 session whose deterministic validation passes on
`today0`: full legal name, today's date, an occupational-impact text. -/
def s5sess : StrMap := sessOf [
  ("Sinusitis__c.DBQ__c.Veteran_Name_Text__c", Value.str "John Doe"),
  ("Sinusitis__c.Date_Submitted__c", Value.str "10/12/2026"),
  ("Sinusitis__c.Sinus_Q21__c", Value.str "Headaches force sick days weekly.")]

/-- Step-5 state holding the `s5sess` answers, before any validation. -/
def st5 : AppState := { baseState with step := 5, session := s5sess }

/-- `st5` after a "Validate Full Form" click in which the whole-form
oracle answers `"PASS"`. -/
def st5A : AppState := click_validate_full today0 (fun _ => "PASS") st5

/-- `st5A` after the user edits the Veteran Name field to the empty
string (an answer change after the whole-form PASS). -/
def st5B : AppState :=
  edit_answer "Sinusitis__c.DBQ__c.Veteran_Name_Text__c" (Value.str "") st5A

/-- `st5B` after a click on the non-forced "Submit" button. -/
def st5C : AppState := click_submit st5B

/-- `form_data` holding the sentinel `"--select--"` for the medication
count selector (as `save_step_data` produces when the selector was left
on its placeholder). -/
def sentinelFD : StrMap := sessOf [("Sinusitis__c.Sinus_Q11a__c", Value.str "--select--")]

/-- A step-2 state holding a provisional pass whose snapshot (an empty
readable dict) no longer matches the live answers. -/
def stW1 : AppState :=
  { baseState with
      step := 2
      session := sessOf [("Sinusitis__c.Sinus_Q11__c", Value.str "Yes")]
      step_validation_passed := true
      validated_step_data := some [] }

/-- A step-5 state showing a consistency warning, with an empty session
(so the deterministic final-step validation fails). -/
def stW3 : AppState :=
  { baseState with step := 5, current_warning := some "inconsistent" }

/-- A state with one live answer, used for the draft round-trip. -/
def stC8 : AppState :=
  { baseState with session := sessOf [("Sinusitis__c.Sinus_Q11__c", Value.str "Yes")] }

theorem save_step_data_session (st : AppState) :
    (save_step_data st).session = st.session := rfl

theorem save_step_data_step (st : AppState) : (save_step_data st).step = st.step := rfl

theorem nav_revoke_session (st : AppState) : (nav_revoke st).session = st.session := by
  unfold nav_revoke
  split
  · split <;> rfl
  · rfl

theorem nav_revoke_step (st : AppState) : (nav_revoke st).step = st.step := by
  unfold nav_revoke
  split
  · split <;> rfl
  · rfl

theorem nav_revoke_aws (st : AppState) :
    (nav_revoke st).aws_upload_triggered = st.aws_upload_triggered := by
  unfold nav_revoke
  split
  · split <;> rfl
  · rfl

/-- First hit of `List.findSome?` over `List.range' s n`: if every index
from `s` up to `i` maps to `none` and `i` (within the range) maps to
`some e`, the scan returns `some e`. -/
theorem findSome_range'_first (f : Nat → Option String) :
    ∀ (n s i : Nat) (e : String), s ≤ i → i < s + n →
      (∀ j, s ≤ j → j < i → f j = none) → f i = some e →
      (List.range' s n).findSome? f = some e := by
  intro n
  induction n with
  | zero => intro s i e h1 h2 _ _; omega
  | succ n ih =>
      intro s i e hsi hin hprev hf
      rw [List.range'_succ, List.findSome?_cons]
      by_cases h : s = i
      · subst h
        rw [hf]
      · have hs : f s = none := hprev s le_rfl (lt_of_le_of_ne hsi h)
        rw [hs]
        exact ih (s + 1) i e (by omega) (by omega)
          (fun j h1 h2 => hprev j (by omega) h2) hf

/-- If every response of the store is `NoSuchKey`, `poll_go` exhausts
its wall-clock budget and reports the timeout. -/
theorem poll_go_all_noSuchKey (store : Nat → S3Resp)
    (h : ∀ j, store j = S3Resp.noSuchKey) :
    ∀ (fuel i : Nat), poll_go store i fuel = PollOutcome.timeoutOut := by
  intro fuel
  induction fuel with
  | zero => intro i; rfl
  | succ n ih =>
      intro i
      unfold poll_go
      rw [h i]
      exact ih (i + 1)

/-- `poll_go` skips an initial run of `NoSuchKey` responses, consuming
one unit of budget (one 5-second sleep) per skipped attempt. -/
theorem poll_go_skip (store : Nat → S3Resp) :
    ∀ (n fuel i : Nat), (∀ j, j < n → store (i + j) = S3Resp.noSuchKey) →
      n ≤ fuel → poll_go store i fuel = poll_go store (i + n) (fuel - n) := by
  intro n
  induction n with
  | zero => intro fuel i _ _; rfl
  | succ n ih =>
      intro fuel i hnsk hle
      cases fuel with
      | zero => omega
      | succ fuel =>
        have h0 : store i = S3Resp.noSuchKey := by
          have := hnsk 0 (Nat.succ_pos n); simpa using this
        have hstep : poll_go store i (fuel + 1) = poll_go store (i + 1) fuel := by
          simp [poll_go, h0]
        rw [hstep]
        have hrec := ih fuel (i + 1) (fun j hj => by
          have := hnsk (j + 1) (by omega)
          simpa [Nat.add_assoc, Nat.add_comm 1 j] using this) (by omega)
        have e1 : i + 1 + n = i + (n + 1) := by omega
        have e2 : fuel - n = fuel + 1 - (n + 1) := by omega
        rw [e1, e2] at hrec
        exact hrec

/-- C6: the polling loop (`poll_output_bucket`) waits a fixed 30-second
quiet period before its first attempt and then polls at a fixed
5-second interval; a `NoSuchKey` response never terminates the loop
before the timeout (a store that always answers `NoSuchKey` drives the
loop to its full 36-attempt budget and the timeout outcome); any other
storage error terminates the loop immediately with the error outcome;
the timeout outcome is distinct from the error outcome, and "not found"
is not a terminal outcome at all; a hit returns the deserialized result
document. -/
theorem C6_poll_protocol :
    INITIAL_WAIT = 30 ∧ POLL_INTERVAL = 5 ∧ maxPolls = 36
    ∧ (∀ store : Nat → S3Resp, (∀ j, store j = S3Resp.noSuchKey) →
        poll_output_bucket store = PollOutcome.timeoutOut)
    ∧ (∀ (store : Nat → S3Resp) (n : Nat) (m : String), n < maxPolls →
        (∀ j, j < n → store j = S3Resp.noSuchKey) →
        store n = S3Resp.clientErr m →
        poll_output_bucket store = PollOutcome.errorOut ("S3 Error: " ++ m))
    ∧ (∀ (store : Nat → S3Resp) (n : Nat) (doc : String), n < maxPolls →
        (∀ j, j < n → store j = S3Resp.noSuchKey) →
        store n = S3Resp.found doc →
        poll_output_bucket store = PollOutcome.success doc)
    ∧ (∀ m, PollOutcome.timeoutOut ≠ PollOutcome.errorOut m)
    ∧ (∀ doc, PollOutcome.timeoutOut ≠ PollOutcome.success doc) := by
  refine ⟨rfl, rfl, rfl, ?_, ?_, ?_, ?_, ?_⟩
  · intro store h
    exact poll_go_all_noSuchKey store h maxPolls 0
  · intro store n m hn hnsk herr
    unfold poll_output_bucket
    rw [poll_go_skip store n maxPolls 0 (fun j hj => by simpa using hnsk j hj) (by omega)]
    have : maxPolls - n = (maxPolls - n - 1) + 1 := by
      have : 0 < maxPolls - n := by omega
      omega
    rw [this]
    unfold poll_go
    simp [herr]
  · intro store n doc hn hnsk hfound
    unfold poll_output_bucket
    rw [poll_go_skip store n maxPolls 0 (fun j hj => by simpa using hnsk j hj) (by omega)]
    have : maxPolls - n = (maxPolls - n - 1) + 1 := by
      have : 0 < maxPolls - n := by omega
      omega
    rw [this]
    unfold poll_go
    simp [hfound]
  · intro m h
    exact PollOutcome.noConfusion h
  · intro doc h
    exact PollOutcome.noConfusion h

/-- Witness for C6: a store that always answers `NoSuchKey` (the spec's
Scenario 4) makes the pipeline report the timeout outcome. -/
theorem C6_poll_protocol_witness :
    poll_output_bucket (fun _ => S3Resp.noSuchKey) = PollOutcome.timeoutOut :=
  C6_poll_protocol.2.2.2.1 (fun _ => S3Resp.noSuchKey) (fun _ => rfl)

/-- C7 counterexample: the oracle verdict travels in-band as a string,
so a well-formed JSON response with status `"FAIL"` whose hint text is
exactly `"PASS"` makes `validate_step` return the pass literal — the
claim that only a response with status `"PASS"` yields a pass is false
at this input. -/
theorem C7_counterexample :
    GroqMedicalScribe.validate_step "key"
      (HttpResult.resp 200 "body"
        (ContentParse.obj (some "FAIL") (some "PASS"))) = "PASS" := by decide

/-- C7 (amended): with an API key configured, a non-200 transport
response, a connection failure, and a JSON-decode failure of the
oracle's output are each normalized to a returned FAIL hint string that
can never equal the pass literal, and the call never raises past this
boundary (`validate_step` is total); a well-formed JSON response with
status `"PASS"` yields the pass verdict — but because the verdict is
carried in-band, a well-formed FAIL response is reported as its bare
hint string, which equals the pass verdict when the hint text is
exactly `"PASS"`. -/
theorem C7_amended_oracle_normalization :
    ∀ (key text m raw : String) (code : Nat) (status hint : Option String),
      key ≠ "" →
      (code ≠ 200 →
        GroqMedicalScribe.validate_step key (HttpResult.resp code text (ContentParse.obj status hint)) =
          "API Error: " ++ text ∧ "API Error: " ++ text ≠ "PASS")
      ∧ (GroqMedicalScribe.validate_step key (HttpResult.exn m) =
          "Cannot connect to Groq server. Error: " ++ m
          ∧ "Cannot connect to Groq server. Error: " ++ m ≠ "PASS")
      ∧ (GroqMedicalScribe.validate_step key (HttpResult.resp 200 text (ContentParse.notJson raw)) =
          "Model error. Raw output: " ++ raw
          ∧ "Model error. Raw output: " ++ raw ≠ "PASS")
      ∧ (status = some "PASS" →
        GroqMedicalScribe.validate_step key (HttpResult.resp 200 text (ContentParse.obj status hint)) = "PASS")
      ∧ (status ≠ some "PASS" →
        GroqMedicalScribe.validate_step key (HttpResult.resp 200 text (ContentParse.obj status hint)) =
          hint.getD "Missing information. Please check your inputs.") := by
  intro key text m raw code status hint hkey
  have hlen : ∀ (p s : String), 5 ≤ p.length → p ++ s ≠ "PASS" := by
    intro p s hp h
    have hc := congrArg String.length h
    rw [String.length_append] at hc
    have h4 : ("PASS" : String).length = 4 := rfl
    rw [h4] at hc
    omega
  refine ⟨?_, ?_, ?_, ?_, ?_⟩
  · intro hcode
    constructor
    · unfold GroqMedicalScribe.validate_step
      simp [hkey, hcode]
    · exact hlen "API Error: " text (by decide)
  · constructor
    · unfold GroqMedicalScribe.validate_step
      simp [hkey]
    · exact hlen "Cannot connect to Groq server. Error: " m (by decide)
  · constructor
    · unfold GroqMedicalScribe.validate_step
      simp [hkey]
    · exact hlen "Model error. Raw output: " raw (by decide)
  · intro hst
    unfold GroqMedicalScribe.validate_step
    simp [hkey, hst]
  · intro hst
    unfold GroqMedicalScribe.validate_step
    simp [hkey, hst]

/-- Witness for C7 (amended): concrete instances of the normalization
clauses. -/
theorem C7_amended_oracle_normalization_witness :
    GroqMedicalScribe.validate_step "key" (HttpResult.exn "timed out") =
      "Cannot connect to Groq server. Error: timed out"
    ∧ GroqMedicalScribe.validate_step "key"
        (HttpResult.resp 500 "overloaded" (ContentParse.obj none none)) =
      "API Error: overloaded"
    ∧ GroqMedicalScribe.validate_step "key"
        (HttpResult.resp 200 "t" (ContentParse.obj (some "PASS") (some ""))) = "PASS" :=
  ⟨((C7_amended_oracle_normalization "key" "t" "timed out" "r" 500 none none (by decide)).2.1).1,
   ((C7_amended_oracle_normalization "key" "overloaded" "m" "r" 500 none none (by decide)).1 (by decide)).1,
   (C7_amended_oracle_normalization "key" "t" "m" "r" 200 (some "PASS") (some "") (by decide)).2.2.2.1 rfl⟩

/-- C10: the pass/fail verdict of the oracle is a plain string compared
against the literal `"PASS"`.  Consequently (a) a well-formed FAIL
response whose hint text is exactly `"PASS"` is returned as the pass
literal, and `attempt_validation` then treats it as a semantic pass and
stores the validation snapshot; and (b) a FAIL response with an empty
hint is returned as `""`, stored as the warning, and — `""` being falsy
— `render_navigation` shows neither the warning/force-continue panel
nor the proceed panel, but the plain Validate Step button: the step
behaves as if it had not been validated. -/
theorem C10_inband_string_verdict :
    ∀ (key text : String) (st : AppState), key ≠ "" →
      GroqMedicalScribe.validate_step key
          (HttpResult.resp 200 text (ContentParse.obj (some "FAIL") (some "PASS"))) = "PASS"
      ∧ (attempt_validation
            (GroqMedicalScribe.validate_step key
              (HttpResult.resp 200 text (ContentParse.obj (some "FAIL") (some "PASS")))) st).step_validation_passed = true
      ∧ (attempt_validation
            (GroqMedicalScribe.validate_step key
              (HttpResult.resp 200 text (ContentParse.obj (some "FAIL") (some "PASS")))) st).validated_step_data =
          some (get_readable_step_data st.session)
      ∧ GroqMedicalScribe.validate_step key
          (HttpResult.resp 200 text (ContentParse.obj (some "FAIL") (some ""))) = ""
      ∧ (attempt_validation
            (GroqMedicalScribe.validate_step key
              (HttpResult.resp 200 text (ContentParse.obj (some "FAIL") (some "")))) st).current_warning = some ""
      ∧ truthy (attempt_validation
            (GroqMedicalScribe.validate_step key
              (HttpResult.resp 200 text (ContentParse.obj (some "FAIL") (some "")))) st).current_warning = false
      ∧ nav_ui (attempt_validation
            (GroqMedicalScribe.validate_step key
              (HttpResult.resp 200 text (ContentParse.obj (some "FAIL") (some "")))) st) = NavUI.validateUI := by
  intro key text st hkey
  have hpass : GroqMedicalScribe.validate_step key
      (HttpResult.resp 200 text (ContentParse.obj (some "FAIL") (some "PASS"))) = "PASS" := by
    unfold GroqMedicalScribe.validate_step
    simp [hkey]
  have hempty : GroqMedicalScribe.validate_step key
      (HttpResult.resp 200 text (ContentParse.obj (some "FAIL") (some ""))) = "" := by
    unfold GroqMedicalScribe.validate_step
    simp [hkey]
  rw [hpass, hempty]
  exact ⟨rfl, rfl, rfl, rfl, rfl, rfl, rfl⟩

/-- Witness for C10 at a concrete key, body and state. -/
theorem C10_inband_string_verdict_witness :
    (attempt_validation
        (GroqMedicalScribe.validate_step "key"
          (HttpResult.resp 200 "b" (ContentParse.obj (some "FAIL") (some "PASS")))) baseState).step_validation_passed = true
    ∧ nav_ui (attempt_validation
        (GroqMedicalScribe.validate_step "key"
          (HttpResult.resp 200 "b" (ContentParse.obj (some "FAIL") (some "")))) baseState) = NavUI.validateUI :=
  ⟨(C10_inband_string_verdict "key" "b" baseState (by decide)).2.1,
   (C10_inband_string_verdict "key" "b" baseState (by decide)).2.2.2.2.2.2⟩

/-- C5 counterexample: the claim says the sentinel values are emitted
with a null answer, but `generate_tailored_json` copies
`form_data.get(key, None)` verbatim — a stored `"--select--"` appears
in the envelope as the string `"--select--"`, not as null. -/
theorem C5_counterexample :
    (generate_tailored_json "000000" sentinelFD).dpa.find?
        (fun e => e.core == "Sinus_Q11a__c") =
      some { core := "Sinus_Q11a__c", question := "How many medications?",
             answer := some (Value.str "--select--") }
    ∧ some (Value.str "--select--") ≠ (none : Option Value) := by decide

/-- C5 (amended): for every answer map, the envelope's `DPA` holds
exactly one entry per field, in exactly the `ALL_KEYS_ORDERED` schema
order regardless of the stored answers, each entry carrying the field's
label as its Question and the stored value as its Answer; a field whose
stored value is `None` (never written — in particular every hidden,
never-rendered field) is emitted with a null answer, but the sentinel
strings `""`, `"--select--"`, `"--select an item--"` stored by rendered
widgets are emitted verbatim, not normalized to null. -/
theorem C5_amended_envelope_shape :
    ∀ (cid : String) (fd : StrMap),
      (generate_tailored_json cid fd).dpa.map EnvelopeEntry.core =
          ALL_KEYS_ORDERED.map coreKey
      ∧ (ALL_KEYS_ORDERED.map coreKey).Nodup
      ∧ (∀ k, k ∈ ALL_KEYS_ORDERED →
          ({ core := coreKey k, question := labelOf k, answer := fd k } : EnvelopeEntry) ∈
            (generate_tailored_json cid fd).dpa) := by
  intro cid fd
  refine ⟨rfl, by decide, ?_⟩
  intro k hk
  unfold generate_tailored_json
  exact List.mem_map_of_mem _ hk

/-- Witness for C5 (amended): the envelope over the sentinel-holding
answer map contains the medication-count entry with its label and its
verbatim stored value. -/
theorem C5_amended_envelope_shape_witness :
    EnvelopeEntry.mk "Sinus_Q11a__c" "How many medications?"
        (some (Value.str "--select--")) ∈
      (generate_tailored_json "000000" sentinelFD).dpa := by
  have h := (C5_amended_envelope_shape "000000" sentinelFD).2.2
      "Sinusitis__c.Sinus_Q11a__c" (by decide)
  have he : EnvelopeEntry.mk (coreKey "Sinusitis__c.Sinus_Q11a__c")
        (labelOf "Sinusitis__c.Sinus_Q11a__c")
        (sentinelFD "Sinusitis__c.Sinus_Q11a__c") =
      EnvelopeEntry.mk "Sinus_Q11a__c" "How many medications?"
        (some (Value.str "--select--")) := by decide
  rw [he] at h
  exact h

theorem nav_revoke_of_not_passed (st : AppState)
    (hp : st.step_validation_passed = false) : nav_revoke st = st := by
  unfold nav_revoke
  rw [hp]
  simp

theorem nav_revoke_of_stale (st : AppState)
    (hp : st.step_validation_passed = true)
    (hne : some (get_readable_step_data st.session) ≠ st.validated_step_data) :
    nav_revoke st =
      { save_step_data st with
          step_validation_passed := false
          validated_step_data := none
          current_warning := none } := by
  unfold nav_revoke
  rw [hp]
  rw [if_pos rfl]
  exact if_neg hne

theorem nav_revoke_of_fresh (st : AppState)
    (hp : st.step_validation_passed = true)
    (heq : some (get_readable_step_data st.session) = st.validated_step_data) :
    nav_revoke st = save_step_data st := by
  unfold nav_revoke
  rw [hp]
  rw [if_pos rfl]
  exact if_pos heq

theorem click_proceed_of_guard_false (st : AppState)
    (h : (!truthy (nav_revoke st).current_warning &&
          (nav_revoke st).step_validation_passed) = false) :
    click_proceed st = nav_revoke st := by
  unfold click_proceed
  rw [h]
  simp

/-- C1: if a provisional pass is held but the live readable answers of
the current step differ from the validated snapshot, a click on the
advance button is a no-op: the step index is unchanged, the snapshot is
discarded and the pass flag is cleared (the user must re-validate).
Conversely, the step index changes only when a pass was held whose
snapshot equals the exact answers currently present. -/
theorem C1_stale_advance_noop :
    ∀ st : AppState,
      (st.step_validation_passed = true →
        some (get_readable_step_data st.session) ≠ st.validated_step_data →
          (click_proceed st).step = st.step
          ∧ (click_proceed st).validated_step_data = none
          ∧ (click_proceed st).step_validation_passed = false)
      ∧ ((click_proceed st).step ≠ st.step →
          st.step_validation_passed = true
          ∧ some (get_readable_step_data st.session) = st.validated_step_data) := by
  intro st
  constructor
  · intro hp hne
    have hrev := nav_revoke_of_stale st hp hne
    have hguard : (!truthy (nav_revoke st).current_warning &&
        (nav_revoke st).step_validation_passed) = false := by
      rw [hrev]; rfl
    rw [click_proceed_of_guard_false st hguard, hrev]
    exact ⟨rfl, rfl, rfl⟩
  · intro hstep
    cases hp : st.step_validation_passed with
    | true =>
        by_cases heq : some (get_readable_step_data st.session) = st.validated_step_data
        · exact ⟨rfl, heq⟩
        · exfalso
          apply hstep
          have hrev := nav_revoke_of_stale st hp heq
          have hguard : (!truthy (nav_revoke st).current_warning &&
              (nav_revoke st).step_validation_passed) = false := by
            rw [hrev]; rfl
          rw [click_proceed_of_guard_false st hguard, hrev]
          rfl
    | false =>
        exfalso
        apply hstep
        have hrev := nav_revoke_of_not_passed st hp
        have hguard : (!truthy (nav_revoke st).current_warning &&
            (nav_revoke st).step_validation_passed) = false := by
          rw [hrev, hp, Bool.and_false]
        rw [click_proceed_of_guard_false st hguard, hrev]

/-- Witness for C1: a held pass whose empty snapshot differs from the
live answers is revoked and the step does not move. -/
theorem C1_stale_advance_noop_witness :
    (click_proceed stW1).step = stW1.step
    ∧ (click_proceed stW1).validated_step_data = none
    ∧ (click_proceed stW1).step_validation_passed = false :=
  (C1_stale_advance_noop stW1).1 rfl (by decide)

/-- C2: a click on "Validate Step" (or "Validate Again") runs the
deterministic rule first; when it returns an error, the click performs
zero semantic-oracle calls and leaves the state as the mere render pass
left it (the error is only displayed). -/
theorem C2_fail_fast :
    ∀ (python_validation : StrMap → Option String)
      (oracle : List (String × Value) → String) (st : AppState) (e : String),
      python_validation st.session = some e →
        (click_validate python_validation oracle st).2 = 0
        ∧ (click_validate python_validation oracle st).1 = nav_revoke st := by
  intro pv oracle st e h
  have h' : pv (nav_revoke st).session = some e := by
    rw [nav_revoke_session]; exact h
  unfold click_validate
  rw [h']
  exact ⟨rfl, rfl⟩

/-- Witness for C2: a failing deterministic rule yields zero oracle
calls on a concrete state. -/
theorem C2_fail_fast_witness :
    (click_validate (fun _ => some "err") (fun _ => "PASS") baseState).2 = 0
    ∧ (click_validate (fun _ => some "err") (fun _ => "PASS") baseState).1 =
        nav_revoke baseState :=
  C2_fail_fast (fun _ => some "err") (fun _ => "PASS") baseState "err" rfl

/-- C3: when the deterministic rule of the current step returns an
error, the force-advance actions are inert: "Continue Anyway" leaves
the step index (and the upload trigger) unchanged, and "Submit Anyway"
on the final step leaves the whole state unchanged — deterministic
failures are hard blockers that no user override bypasses. -/
theorem C3_deterministic_hard_blocker :
    ∀ (python_validation : StrMap → Option String) (today : String)
      (st : AppState) (e : String),
      (python_validation st.session = some e →
        (click_force python_validation st).step = st.step
        ∧ (click_force python_validation st).aws_upload_triggered =
            st.aws_upload_triggered)
      ∧ (validate_step_5 today st.session = some e →
          click_submit_anyway today st = st) := by
  intro pv today st e
  constructor
  · intro h
    have h' : pv (nav_revoke st).session = some e := by
      rw [nav_revoke_session]; exact h
    unfold click_force
    rw [h']
    exact ⟨nav_revoke_step st, nav_revoke_aws st⟩
  · intro h
    unfold click_submit_anyway
    by_cases hw : truthy st.current_warning = true
    · rw [if_pos hw, h]
    · rw [if_neg hw]

/-- Witness for C3: on a warning-showing final-step state whose
deterministic validation fails, "Submit Anyway" changes nothing, and a
failing per-step rule keeps "Continue Anyway" from advancing. -/
theorem C3_deterministic_hard_blocker_witness :
    (click_force (fun _ => some "blocked") stW3).step = stW3.step
    ∧ click_submit_anyway today0 stW3 = stW3 :=
  ⟨((C3_deterministic_hard_blocker (fun _ => some "blocked") today0 stW3
      "blocked").1 rfl).1,
   (C3_deterministic_hard_blocker (fun _ => some "blocked") today0 stW3
      "Veteran Name is strictly required to sign and submit this document.").2
      (by decide)⟩

/-- C4 counterexample: after a whole-form PASS (`st5A`), the user edits
the Veteran Name to the empty string (`st5B`) and clicks the non-forced
Submit (`st5C`).  The upload is triggered even though the deterministic
validation of the final step now fails on the live answers and the live
readable answers differ from those the audit saw — editing an answer
after the whole-form PASS did not invalidate that PASS, contrary to the
claim. -/
theorem C4_counterexample :
    st5C.aws_upload_triggered = true
    ∧ validate_step_5 today0 st5C.session =
        some "Veteran Name is strictly required to sign and submit this document."
    ∧ get_readable_step_data st5C.session ≠ get_readable_step_data st5.session := by
  decide

/-- C4 (amended): the non-forced Submit is only reachable while
`final_validation_passed` is set (when it is clear, the Submit click is
a no-op); the flag is set only by a "Validate Full Form" click in which
the deterministic validation of the final step passed on the answers
then present and the whole-form audit returned `"PASS"` on the answers
committed at that moment; however, editing an answer afterwards leaves
the flag set, so submission does not require a new audit of the edited
answers. -/
theorem C4_amended_submit_gate :
    ∀ (today : String) (oracle : List (String × Value) → String)
      (st : AppState) (k : String) (v : Value),
      (st.final_validation_passed = false → click_submit st = st)
      ∧ (st.final_validation_passed = false →
          (click_validate_full today oracle st).final_validation_passed = true →
            validate_step_5 today st.session = none
            ∧ oracle (get_readable_step_data (save_step_data st).form_data) = "PASS")
      ∧ (edit_answer k v st).final_validation_passed = st.final_validation_passed := by
  intro today oracle st k v
  refine ⟨?_, ?_, rfl⟩
  · intro hf
    unfold click_submit
    rw [hf, Bool.and_false]
    simp
  · intro hf hset
    unfold click_validate_full at hset
    by_cases hw : (truthy st.current_warning || st.final_validation_passed) = true
    · rw [if_pos hw] at hset
      rw [hf] at hset
      exact absurd hset (by simp)
    · rw [if_neg hw] at hset
      cases hv : validate_step_5 today st.session with
      | some e =>
          rw [hv] at hset
          rw [hf] at hset
          exact absurd hset (by simp)
      | none =>
          rw [hv] at hset
          refine ⟨rfl, ?_⟩
          by_cases ho : oracle (get_readable_step_data (save_step_data st).form_data) = "PASS"
          · exact ho
          · rw [if_neg ho] at hset
            have hcontr : st.final_validation_passed = true := hset
            rw [hf] at hcontr
            exact absurd hcontr (by simp)

/-- Witness for C4 (amended): with the flag clear, Submit is a no-op,
and an edit preserves the flag. -/
theorem C4_amended_submit_gate_witness :
    click_submit baseState = baseState
    ∧ (edit_answer "k" (Value.str "v") baseState).final_validation_passed =
        baseState.final_validation_passed :=
  ⟨(C4_amended_submit_gate today0 (fun _ => "PASS") baseState "k"
      (Value.str "v")).1 rfl,
   (C4_amended_submit_gate today0 (fun _ => "PASS") baseState "k"
      (Value.str "v")).2.2⟩

/-- C8: loading the draft written by Save Progress restores exactly the
saved step and the saved answer map (verbatim — the identity is within
"modulo canonicalization"), into any target session state; and after
the armed `force_restore` rebind pass, every live binding for a field
with a stored (non-`None`) value reads exactly that value before the
next render. -/
theorem C8_draft_round_trip :
    ∀ (st target : AppState),
      (force_restore_pass (load_draft (save_draft st).2 target)).step =
          (save_draft st).1.step
      ∧ (∀ k, (force_restore_pass (load_draft (save_draft st).2 target)).form_data k =
          (save_draft st).1.form_data k)
      ∧ (∀ k, (save_draft st).1.form_data k ≠ none →
          (force_restore_pass (load_draft (save_draft st).2 target)).session k =
            (save_draft st).1.form_data k) := by
  intro st target
  refine ⟨rfl, fun k => rfl, ?_⟩
  intro k hk
  cases h : (save_step_data st).form_data k with
  | none => exact absurd h hk
  | some v =>
      show (match (save_step_data st).form_data k with
            | some w => some w
            | none => target.session k) = (save_draft st).1.form_data k
      rw [h]
      exact h.symm

/-- Witness for C8: the answer written at a concrete key survives the
save/load/rebind round trip into a fresh session. -/
theorem C8_draft_round_trip_witness :
    (force_restore_pass (load_draft (save_draft stC8).2 baseState)).session
        "Sinusitis__c.Sinus_Q11__c" =
      (save_draft stC8).1.form_data "Sinusitis__c.Sinus_Q11__c" :=
  (C8_draft_round_trip stC8 baseState).2.2 "Sinusitis__c.Sinus_Q11__c" (by decide)

theorem py_validate_meds_of_count (σ : StrMap) (n : String)
    (hyes : σ "Sinusitis__c.Sinus_Q11__c" = some (Value.str "Yes"))
    (hna : σ "Sinusitis__c.Sinus_Q11a__c" = some (Value.str n))
    (hmem : n = "1" ∨ n = "2" ∨ n = "3" ∨ n = "More than 3") :
    py_validate_meds σ = validate_meds_counted σ (medCountOf (some (Value.str n))) := by
  unfold py_validate_meds
  rw [hyes, if_pos rfl, hna]
  rcases hmem with rfl | rfl | rfl | rfl <;> rfl

theorem validate_meds_counted_eq_none (σ : StrMap) (c : Nat) :
    validate_meds_counted σ c = none ↔
      (∀ i, i < min c 3 → medErr σ i = none)
      ∧ (c = 4 → pyStrip (getStrD σ "Sinusitis__c.Sinus_Q11b__c") ≠ "") := by
  unfold validate_meds_counted
  cases hfs : (List.range (min c 3)).findSome? (medErr σ) with
  | some e =>
      constructor
      · intro h; exact absurd h (by simp)
      · rintro ⟨hall, -⟩
        obtain ⟨i, hi, hfi⟩ := List.exists_of_findSome?_eq_some hfs
        rw [List.mem_range] at hi
        rw [hall i hi] at hfi
        exact absurd hfi (by simp)
  | none =>
      have hall : ∀ i, i < min c 3 → medErr σ i = none := by
        intro i hi
        exact List.findSome?_eq_none_iff.mp hfs i (List.mem_range.mpr hi)
      by_cases h4 : c = 4
      · by_cases hs : pyStrip (getStrD σ "Sinusitis__c.Sinus_Q11b__c") = ""
        · have hcond : (decide (c = 4) && decide (pyStrip (getStrD σ "Sinusitis__c.Sinus_Q11b__c") = "")) = true := by
            simp [h4, hs]
          rw [if_pos hcond]
          constructor
          · intro h; exact absurd h (by simp)
          · rintro ⟨-, hbucket⟩
            exact absurd hs (hbucket h4)
        · have hcond : (decide (c = 4) && decide (pyStrip (getStrD σ "Sinusitis__c.Sinus_Q11b__c") = "")) = false := by
            simp [hs]
          rw [if_neg (by simp [hcond])]
          exact ⟨fun _ => ⟨hall, fun _ => hs⟩, fun _ => rfl⟩
      · have hcond : (decide (c = 4) && decide (pyStrip (getStrD σ "Sinusitis__c.Sinus_Q11b__c") = "")) = false := by
          simp [h4]
        rw [if_neg (by simp [hcond])]
        exact ⟨fun _ => ⟨hall, fun h => absurd h h4⟩, fun _ => rfl⟩

theorem validate_meds_counted_first (σ : StrMap) (c i : Nat) (e : String)
    (hi : i < min c 3) (hprev : ∀ j, j < i → medErr σ j = none)
    (he : medErr σ i = some e) : validate_meds_counted σ c = some e := by
  unfold validate_meds_counted
  have hfs : (List.range (min c 3)).findSome? (medErr σ) = some e := by
    rw [List.range_eq_range']
    exact findSome_range'_first (medErr σ) (min c 3) 0 i e (Nat.zero_le i)
      (by omega) (fun j _ h2 => hprev j h2) he
  rw [hfs]

theorem checkMedRecord_eq_none_iff (i : Nat) (name dose freq : String) :
    checkMedRecord i name dose freq = none ↔ recordOk name dose freq = true := by
  unfold checkMedRecord recordOk
  split_ifs with h1 h2 h3 h4 h5 h6 h7 <;> simp_all

/-- C9: the deterministic medication validator, for every selected count
`n` with "taking medication" = Yes: (1) it passes exactly when each of
the first `min(count, 3)` medication records is complete (name, dosage,
frequency all present and well-formed) and, for "More than 3", the
additional free-text bucket is non-empty; (2) the records are checked in
fixed order and the first violation's message is returned; (3) a record
is complete exactly when it passes the eight source checks; (4)-(5) a
dosage or frequency consisting solely of digits is always rejected;
(6) the spec's Scenario 1 — count `"2"` with only medication #1 filled
in — yields the blocking error citing medication #2's missing name. -/
theorem C9_medication_validator :
    (∀ (σ : StrMap) (n : String),
      σ "Sinusitis__c.Sinus_Q11__c" = some (Value.str "Yes") →
      σ "Sinusitis__c.Sinus_Q11a__c" = some (Value.str n) →
      (n = "1" ∨ n = "2" ∨ n = "3" ∨ n = "More than 3") →
        (py_validate_meds σ = none ↔
          (∀ i, i < min (medCountOf (some (Value.str n))) 3 → medErr σ i = none)
          ∧ (n = "More than 3" →
              pyStrip (getStrD σ "Sinusitis__c.Sinus_Q11b__c") ≠ "")))
    ∧ (∀ (σ : StrMap) (n : String) (i : Nat) (e : String),
        σ "Sinusitis__c.Sinus_Q11__c" = some (Value.str "Yes") →
        σ "Sinusitis__c.Sinus_Q11a__c" = some (Value.str n) →
        (n = "1" ∨ n = "2" ∨ n = "3" ∨ n = "More than 3") →
        i < min (medCountOf (some (Value.str n))) 3 →
        (∀ j, j < i → medErr σ j = none) →
        medErr σ i = some e →
        py_validate_meds σ = some e)
    ∧ (∀ (i : Nat) (name dose freq : String),
        checkMedRecord i name dose freq = none ↔ recordOk name dose freq = true)
    ∧ (∀ (i : Nat) (name dose freq : String), pyIsDigit dose = true →
        checkMedRecord i name dose freq ≠ none)
    ∧ (∀ (i : Nat) (name dose freq : String), pyIsDigit freq = true →
        checkMedRecord i name dose freq ≠ none)
    ∧ py_validate_meds meds2sess =
        some "Medication #2 Name is missing or too short." := by
  refine ⟨?_, ?_, checkMedRecord_eq_none_iff, ?_, ?_, by decide⟩
  · intro σ n hyes hna hmem
    rw [py_validate_meds_of_count σ n hyes hna hmem]
    constructor
    · intro h
      rcases (validate_meds_counted_eq_none σ _).mp h with ⟨hall, hbucket⟩
      refine ⟨hall, ?_⟩
      intro hn
      exact hbucket (by rw [hn]; rfl)
    · rintro ⟨hall, hbucket⟩
      refine (validate_meds_counted_eq_none σ _).mpr ⟨hall, ?_⟩
      intro h4
      apply hbucket
      rcases hmem with rfl | rfl | rfl | rfl
      · exact absurd h4 (by decide)
      · exact absurd h4 (by decide)
      · exact absurd h4 (by decide)
      · rfl
  · intro σ n i e hyes hna hmem hi hprev he
    rw [py_validate_meds_of_count σ n hyes hna hmem]
    exact validate_meds_counted_first σ _ i e hi hprev he
  · intro i name dose freq hd hnone
    unfold checkMedRecord at hnone
    split_ifs at hnone
  · intro i name dose freq hf hnone
    unfold checkMedRecord at hnone
    split_ifs at hnone

/-- Witness for C9: with count `"3"` and all three records complete, the
validator passes; and a digit-only dosage is rejected on a concrete
record. -/
theorem C9_medication_validator_witness :
    py_validate_meds meds3sess = none
    ∧ checkMedRecord 0 "Flonase" "50" "daily" ≠ none :=
  ⟨(C9_medication_validator.1 meds3sess "3" (by decide) (by decide)
      (by decide)).mpr
    ⟨by intro i hi
        have h3 : i < 3 := hi
        interval_cases i <;> decide,
     by decide⟩,
   C9_medication_validator.2.2.2.1 0 "Flonase" "50" "daily" (by decide)⟩

end MedForm
